import Mathlib

/-!
Verification development for the StrawHats (SentiGuard) sentiment/alerting core.

The definitions below are a shallow embedding of the Python sources:
  * `src/strawhats/enhanced_analyzer.py` — `EnhancedSentimentAnalyzer`
    (`detect_sarcasm`, `detect_mental_health_concerns`, `analyze_context`),
  * `src/strawhats/analyzer.py` — `analyze_sentiment`, `count_below_threshold`,
    `save_mood_to_history`, `get_mood_statistics`, constants `THRESHOLD`, `ALERT_LIMIT`,
  * `src/strawhats/gui.py` — `check_and_add_guardian_alert`.

Modelling conventions:
  * Python floats are modelled as exact rationals (`ℚ`); the constants involved
    (0.1, 0.4, 0.5, 0.6, 0.7, 0.8) are exactly representable, so no rounding is lost.
  * The NLTK VADER scorer is an external library (not part of this repository); it is
    passed in as an explicit parameter (`VaderScores`, `vader : String → VaderScores`).
  * Python `re.search` over the fixed pattern lists is embedded with a small
    regular-expression type `RE` and a Brzozowski-derivative matcher; each pattern
    literal from the source is transcribed into an `RE` term.  The lazy `.*?` is
    modelled as `.*` — laziness affects which match is found, never whether one exists,
    and the code only uses the boolean result of `re.search`.
  * File I/O is modelled by passing file contents explicitly
    (`Option (List String)` for a possibly-missing file).
-/

set_option allowUnsafeReducibility true in
attribute [semireducible] Rat.add Rat.mul Rat.sub Rat.inv Rat.ofScientific

set_option maxRecDepth 1000

namespace StrawHats

/-! ### Characters and Python string helpers -/

/-- The characters Python `str.strip` / `\s` treat as whitespace. -/
def spaceList : List Char := [' ', '\t', '\n', '\r', Char.ofNat 11, Char.ofNat 12]

/-- Python whitespace test (`str.isspace` on a single character). -/
def pyIsSpace (c : Char) : Bool :=
  c == ' ' || c == '\t' || c == '\n' || c == '\r' || c == Char.ofNat 11 || c == Char.ofNat 12

/-- Python word-class character (`\w`), restricted to ASCII as the source's
patterns only contain ASCII. -/
def isWordChar (c : Char) : Bool := c.isAlphanum || c == '_'

/-- Python `not text or not text.strip()`: the string is empty or all whitespace. -/
def isBlank (s : String) : Bool := s.data.all pyIsSpace

/-- Python `text.strip()`: drop whitespace from both ends. -/
def pyStrip (s : String) : String :=
  String.mk (((s.data.dropWhile pyIsSpace).reverse.dropWhile pyIsSpace).reverse)

/-- Python `text.lower()` as a character list (ASCII lowering). -/
def lowerChars (s : String) : List Char := s.data.map Char.toLower

/-- Does `n` occur at the start of `h`? (`str.startswith`). -/
def startsList (n : List Char) : List Char → Bool :=
  fun h =>
    match n, h with
    | [], _ => true
    | _ :: _, [] => false
    | a :: as, b :: bs => a == b && startsList as bs

/-- Python substring containment `n in h`. -/
def containsSub (n : List Char) : List Char → Bool
  | [] => n.isEmpty
  | c :: cs => startsList n (c :: cs) || containsSub n cs

/-! ### A small regular-expression engine (Brzozowski derivatives)

Exactly the constructs used by the source's pattern lists: literal characters,
character classes (`\s`, `\w`, `.`), concatenation, alternation, Kleene star
(covering `+`, `?`, `*`, and lazy `*?` for search purposes). -/

inductive RE where
  | emp : RE
  | eps : RE
  | chr : Char → RE
  | cls : (Char → Bool) → RE
  | alt : RE → RE → RE
  | cat : RE → RE → RE
  | star : RE → RE

namespace RE

/-- Smart alternation (keeps derivative terms small). -/
def rAlt : RE → RE → RE
  | .emp, b => b
  | a, .emp => a
  | a, b => .alt a b

/-- Smart concatenation (keeps derivative terms small). -/
def rCat : RE → RE → RE
  | .emp, _ => .emp
  | _, .emp => .emp
  | .eps, b => b
  | a, .eps => a
  | a, b => .cat a b

def nullable : RE → Bool
  | .emp => false
  | .eps => true
  | .chr _ => false
  | .cls _ => false
  | .alt a b => nullable a || nullable b
  | .cat a b => nullable a && nullable b
  | .star _ => true

def deriv : RE → Char → RE
  | .emp, _ => .emp
  | .eps, _ => .emp
  | .chr c, a => if a == c then .eps else .emp
  | .cls p, a => if p a then .eps else .emp
  | .alt r1 r2, a => rAlt (deriv r1 a) (deriv r2 a)
  | .cat r1 r2, a =>
      if nullable r1 then rAlt (rCat (deriv r1 a) r2) (deriv r2 a)
      else rCat (deriv r1 a) r2
  | .star r, a => rCat (deriv r a) (.star r)

/-- Full match of `r` against `s`. -/
def reMatch (r : RE) (s : List Char) : Bool := nullable (s.foldl deriv r)

/-- Any character (the padding used to turn a full match into a search). -/
def anyChar : RE := .cls (fun _ => true)

/-- Python `re.search r s` (no anchors in any source pattern): some substring
of `s` matches `r`, i.e. `.*r.*` matches all of `s`. -/
def reSearch (r : RE) (s : List Char) : Bool :=
  reMatch (.cat (.star anyChar) (.cat r (.star anyChar))) s

/-- Does some all-whitespace string match `r`?  Conservative syntactic test used
to show that blank input can never satisfy any of the source's patterns. -/
def blankMatchable : RE → Bool
  | .emp => false
  | .eps => true
  | .chr c => pyIsSpace c
  | .cls p => spaceList.any p
  | .alt a b => blankMatchable a || blankMatchable b
  | .cat a b => blankMatchable a && blankMatchable b
  | .star _ => true

end RE

/-! ### Pattern combinators used to transcribe the source's regex literals -/

/-- Literal string pattern. -/
def rstr (s : String) : RE := s.data.foldr (fun c r => .cat (.chr c) r) .eps

/-- `\s+`. -/
def wsp : RE := .cat (.cls pyIsSpace) (.star (.cls pyIsSpace))

/-- `\w+`. -/
def wdp : RE := .cat (.cls isWordChar) (.star (.cls isWordChar))

/-- `.*?` (modelled as `.*`; `.` does not match a newline). -/
def dotQ : RE := .star (.cls (fun c => !(c == '\n')))

/-- `(a|b|...)`. -/
def ralts (l : List RE) : RE := l.foldr .alt .emp

/-- Concatenation of a pattern sequence. -/
def rcats (l : List RE) : RE := l.foldr .cat .eps

/-- `r?`. -/
def ropt (r : RE) : RE := .alt .eps r

/-- The apostrophe character (as in the source's `can't`). -/
def apos : Char := Char.ofNat 39

/-! ### The pattern lists of `EnhancedSentimentAnalyzer.__init__`
(enhanced_analyzer.py, lines 25-70), transcribed one for one. -/

/-- `self.sarcasm_patterns` (9 patterns). -/
def sarcasmPatterns : List RE :=
  [ rcats [rstr "so", wsp, wdp, wsp, dotQ,
      ralts [rstr "kill", rstr "die", rstr "murder", rstr "destroy", rstr "hate"]],
    rcats [rstr "really", wsp, wdp, wsp, dotQ,
      ralts [rstr "awful", rstr "terrible", rstr "horrible"]],
    rcats [rstr "just", wsp, ralts [rstr "perfect", rstr "great", rstr "wonderful"], wsp, dotQ,
      ralts [rstr "not", rstr "never", rstr "fail", rstr "wrong", rstr "disaster"]],
    rcats [ralts [rstr "happy", rstr "excited", rstr "thrilled"], wsp, dotQ,
      ralts [rstr "kill", rstr "murder", rstr "destroy"]],
    rcats [ralts [rstr "love", rstr "adore"], wsp, dotQ,
      ralts [rcats [rstr "when", wsp, rstr "things", wsp, rstr "go", wsp, rstr "wrong"],
             rcats [rstr "when", wsp, rstr "people", wsp, rstr "ignore"]]],
    rcats [ralts [rstr "amazing", rstr "wonderful", rstr "perfect"], wsp, dotQ,
      ralts [rstr "day", rstr "time"], wsp, dotQ,
      ralts [rstr "disaster", rstr "failure", rstr "wrong", rstr "disappointment"]],
    rcats [ralts [rstr "so", rstr "really", rstr "very"], wsp,
      ralts [rstr "excited", rstr "happy", rstr "thrilled"], wsp, dotQ,
      rcats [rstr "could", wsp, ralts [rstr "die", rstr "kill"]]],
    rcats [ralts [rstr "great", rstr "perfect", rstr "wonderful"], ropt (rstr ","), wsp,
      rstr "another", wsp, dotQ, ralts [rstr "day", rstr "time"], wsp, dotQ,
      ralts [rstr "disappointment", rstr "failure", rstr "disaster"]],
    rcats [ralts [rstr "love", rstr "adore"], wsp, rstr "it", wsp, rstr "when", wsp, dotQ,
      ralts [rstr "ignore", rstr "hurt", rstr "disappoint"]] ]

/-- `self.negative_contexts` (8 patterns). -/
def negativeContexts : List RE :=
  [ rcats [ralts [rstr "kill", rstr "murder", rstr "destroy", rstr "eliminate"], wsp,
      ralts [rstr "someone", rstr "somebody", rstr "people"]],
    rcats [ralts [rstr "die", rstr "death", rstr "dead"], wsp,
      ralts [rstr "inside", rstr "emotionally"]],
    rcats [rstr "could", wsp, ralts [rstr "murder", rstr "kill"], wsp,
      ralts [rstr "for", rstr "someone"]],
    rcats [ralts [rstr "hate", rstr "despise"], wsp,
      ralts [rstr "everything", rstr "everyone", rstr "life"]],
    rcats [rstr "want", wsp, rstr "to", wsp,
      ralts [rstr "die", rstr "disappear", rcats [rstr "give", wsp, rstr "up"]]],
    rcats [rstr "wish", wsp, dotQ,
      ralts [rstr "dead", rstr "gone", rcats [rstr "never", wsp, rstr "born"]]],
    rcats [ralts [rstr "end", rstr "finish"], wsp, rstr "it", wsp, rstr "all"],
    rcats [rstr "nothing", wsp, rstr "matters", wsp, rstr "anymore"] ]

/-- `self.potential_sarcasm` (3 patterns). -/
def potentialSarcasm : List RE :=
  [ rcats [ralts [rstr "so", rstr "really", rstr "very"], wsp,
      ralts [rstr "happy", rstr "excited", rstr "thrilled", rstr "perfect", rstr "great",
             rstr "wonderful", rstr "amazing"]],
    rcats [ralts [rstr "absolutely", rstr "totally", rstr "completely"], wsp,
      ralts [rstr "love", rstr "adore", rstr "perfect"]],
    rcats [rstr "just", wsp,
      ralts [rstr "perfect", rstr "great", rstr "wonderful", rstr "amazing"]] ]

/-- `self.mental_health_flags` (5 patterns). -/
def mentalHealthFlags : List RE :=
  [ rcats [ralts [rstr "want", rstr "wish"], wsp, rstr "to", wsp,
      ralts [rstr "die", rcats [rstr "kill", wsp, rstr "myself"],
             rcats [rstr "end", wsp, rstr "it"]]],
    ralts [rstr "suicide", rstr "suicidal", rcats [rstr "self", wsp, rstr "harm"],
           rstr "cutting"],
    ralts [rcats [rstr "no", wsp, rstr "point"], rstr "meaningless", rstr "worthless",
           rstr "useless"],
    ralts [rcats [rstr "everyone", wsp, rstr "hates", wsp, rstr "me"],
           rcats [rstr "nobody", wsp, rstr "cares"],
           rcats [rstr "alone", wsp, rstr "forever"]],
    ralts [rcats [rstr "can", .chr apos, rstr "t", wsp, rstr "take", wsp, rstr "it"],
           rcats [rstr "give", wsp, rstr "up"],
           rcats [rstr "end", wsp, rstr "everything"]] ]

/-- The `concerning_combinations` local to `detect_mental_health_concerns` (3 patterns). -/
def concerningCombinations : List RE :=
  [ rcats [ralts [rstr "happy", rstr "excited"], dotQ,
      ralts [rstr "kill", rstr "murder", rstr "hurt"]],
    rcats [ralts [rstr "love", rstr "adore"], dotQ,
      ralts [rstr "pain", rstr "suffering", rstr "death"]],
    rcats [ralts [rstr "perfect", rstr "wonderful"], dotQ,
      ralts [rstr "end", rstr "finish", rstr "over"]] ]

/-- The `concerning_phrases` local to `analyze_context` (6 patterns). -/
def concerningPhrases : List RE :=
  [ rcats [ralts [rstr "kill", rstr "murder"], wsp,
      ralts [rstr "someone", rstr "somebody", rstr "people"]],
    rcats [rstr "want", wsp, rstr "to", wsp,
      ralts [rstr "die", rcats [rstr "kill", wsp, rstr "myself"]]],
    rcats [ralts [rstr "hate", rstr "despise"], wsp,
      ralts [rstr "life", rstr "everything", rstr "everyone"]],
    rcats [ralts [rstr "wish", rstr "want"], wsp, dotQ,
      ralts [rstr "dead", rstr "gone", rstr "disappear"]],
    rcats [ralts [rstr "end", rstr "finish"], wsp, rstr "it", wsp, rstr "all"],
    rcats [rstr "no", wsp, rstr "point", wsp, ropt (rcats [rstr "in", wsp]),
      ralts [rstr "living", rstr "trying", rstr "anything"]] ]

/-- `positive_words` of `detect_sarcasm`. -/
def positiveWords : List String :=
  ["happy", "great", "wonderful", "perfect", "amazing", "love", "excited", "thrilled",
   "fantastic"]

/-- `negative_words` of `detect_sarcasm`. -/
def negativeWords : List String :=
  ["kill", "murder", "destroy", "hate", "die", "awful", "terrible", "horrible", "disaster"]

/-! ### The analyzer (`enhanced_analyzer.py`) -/

/-- The scores produced by the external NLTK VADER scorer (`polarity_scores`). -/
structure VaderScores where
  compound : ℚ
  pos : ℚ
  neu : ℚ
  neg : ℚ
deriving DecidableEq

/-- `detect_sarcasm(text) -> (is_sarcastic, confidence)` (enhanced_analyzer.py 72-106). -/
def detectSarcasm (text : String) : Bool × ℚ :=
  let tl := lowerChars text
  let s1 : ℚ := if sarcasmPatterns.any (fun r => RE.reSearch r tl) then 7/10 else 0
  let hasPos := positiveWords.any (fun w => containsSub w.data tl)
  let hasNeg := negativeWords.any (fun w => containsSub w.data tl)
  let s2 : ℚ := s1 + (if hasPos && hasNeg then 1/2 else 0)
  let s3 : ℚ := s2 + (if negativeContexts.any (fun r => RE.reSearch r tl) then 3/5 else 0)
  let contrastive := ["when", "while", "but"].any (fun w => containsSub w.data tl)
  let s4 : ℚ := s3 +
    ((potentialSarcasm.filter
        (fun r => RE.reSearch r tl && (hasNeg || contrastive))).length : ℚ) * (2/5)
  (decide (s4 > 1/2), min s4 1)

/-- `detect_mental_health_concerns(text) -> (flag, confidence)`
(enhanced_analyzer.py 108-128). -/
def detectMentalHealth (text : String) : Bool × ℚ :=
  let tl := lowerChars text
  let s1 : ℚ := ((mentalHealthFlags.filter (fun r => RE.reSearch r tl)).length : ℚ) * (4/5)
  let s2 : ℚ :=
    s1 + ((concerningCombinations.filter (fun r => RE.reSearch r tl)).length : ℚ) * (3/5)
  (decide (s2 > 1/2), min s2 1)

/-- The `concerning_phrases` scan of `analyze_context` (enhanced_analyzer.py 169-182). -/
def concerningPhraseHit (text : String) : Bool :=
  concerningPhrases.any (fun r => RE.reSearch r (lowerChars text))

/-- The sarcasm branch of the score-correction policy (enhanced_analyzer.py 157-163). -/
def sarcasmAdjust (isSarc : Bool) (c : ℚ) : ℚ :=
  if isSarc then
    (if c > 1/10 then -(abs c) * (7/10) else if c < -(1/10) then c * (1/2) else c)
  else c

/-- `_categorize_sentiment` (enhanced_analyzer.py 205-216). -/
def categorizeSentiment (score : ℚ) : String :=
  if score ≥ 1/2 then "very_positive"
  else if score ≥ 1/10 then "positive"
  else if score ≥ -(1/10) then "neutral"
  else if score ≥ -(1/2) then "negative"
  else "very_negative"

/-- `_generate_explanation` (enhanced_analyzer.py 218-227), with the formatted
message strings abstracted to their four distinct branches (the numeric payload
kept; only the string rendering is dropped). -/
inductive Explanation where
  | mentalHealth : Explanation
  | sarcasmAdjusted : ℚ → ℚ → Explanation
  | contextAdjusted : ℚ → ℚ → Explanation
  | standard : Explanation
deriving DecidableEq

def generateExplanation (original adjusted : ℚ) (sarcastic concerning : Bool) :
    Explanation :=
  if concerning then .mentalHealth
  else if sarcastic then .sarcasmAdjusted original adjusted
  else if abs (original - adjusted) > 1/5 then .contextAdjusted original adjusted
  else .standard

/-- The dictionary returned by `analyze_context`.  `explanation` is an `Option`
because the empty-input short-circuit dict (enhanced_analyzer.py 133-143) has no
`explanation` key while the main-path dict (192-203) always has one. -/
structure AnalysisResult where
  original_vader : VaderScores
  adjusted_compound : ℚ
  is_sarcastic : Bool
  sarcasm_confidence : ℚ
  mental_health_concern : Bool
  concern_confidence : ℚ
  sentiment_category : String
  confidence : ℚ
  needs_attention : Bool
  explanation : Option Explanation
deriving DecidableEq

/-- The full score-correction pipeline of `analyze_context` (enhanced_analyzer.py
154-182): the sarcasm correction, then the mental-health clamp
`min(adjusted, -0.7)`, then the concerning-phrase clamp `min(adjusted, -0.6)`. -/
def adjustedScore (vader : VaderScores) (text : String) : ℚ :=
  let a1 := sarcasmAdjust (detectSarcasm text).1 vader.compound
  let a2 := if (detectMentalHealth text).1 then min a1 (-(7/10)) else a1
  if concerningPhraseHit text then min a2 (-(3/5)) else a2

/-- `analyze_context` (enhanced_analyzer.py 130-203).  The external VADER result
for the text is supplied as `vader` (the code computes it as
`self.sia.polarity_scores(text)`; on the blank short-circuit it is never
computed, and the fixed zero vector is returned instead). -/
def analyzeContext (vader : VaderScores) (text : String) : AnalysisResult :=
  if isBlank text then
    { original_vader := ⟨0, 0, 1, 0⟩
      adjusted_compound := 0
      is_sarcastic := false
      sarcasm_confidence := 0
      mental_health_concern := false
      concern_confidence := 0
      sentiment_category := "neutral"
      confidence := 0
      needs_attention := false
      explanation := none }
  else
    { original_vader := vader
      adjusted_compound := adjustedScore vader text
      is_sarcastic := (detectSarcasm text).1
      sarcasm_confidence := (detectSarcasm text).2
      mental_health_concern := (detectMentalHealth text).1
      concern_confidence := (detectMentalHealth text).2
      sentiment_category := categorizeSentiment (adjustedScore vader text)
      confidence := abs (adjustedScore vader text)
      needs_attention :=
        decide (adjustedScore vader text < -(2/5)) || (detectSarcasm text).1
          || (detectMentalHealth text).1 || decide ((detectMentalHealth text).2 > 3/10)
      explanation := some (generateExplanation vader.compound (adjustedScore vader text)
        (detectSarcasm text).1 (detectMentalHealth text).1) }

/-- `analyze_sentiment` (analyzer.py 24-38): the scalar wrapper returning the
context-adjusted compound score (its logging side effect is outside the model). -/
def analyzeSentiment (vader : String → VaderScores) (text : String) : ℚ :=
  if isBlank text then 0 else (analyzeContext (vader text) text).adjusted_compound

/-! ### Whole-word occurrence (used to state the substring-vs-word-boundary claim) -/

/-- Accumulator pass for `wordRuns`: `acc` holds the current word-character run
in reverse. -/
def wordRunsAux : List Char → List Char → List (List Char)
  | [], acc => if acc.isEmpty then [] else [acc.reverse]
  | c :: cs, acc =>
      if isWordChar c then wordRunsAux cs (c :: acc)
      else if acc.isEmpty then wordRunsAux cs [] else acc.reverse :: wordRunsAux cs []

/-- The maximal runs of word characters of a character list (the "words" of the
text in the word-boundary sense of `\b`). -/
def wordRuns (l : List Char) : List (List Char) := wordRunsAux l []

/-- `w` occurs in `t` as a whole word (delimited by non-word characters or the
ends of the text), after lowercasing as the analyzer does. -/
def hasWholeWord (w : String) (t : String) : Bool :=
  (wordRuns (lowerChars t)).contains w.data

/-! ### The alert aggregator (analyzer.py + gui.py) -/

/-- `THRESHOLD` (analyzer.py line 18). -/
def THRESHOLD : ℚ := -(1/2)

/-- `ALERT_LIMIT` (analyzer.py line 19). -/
def ALERT_LIMIT : ℕ := 5

/-- `count_below_threshold(return_lines=True)` (analyzer.py 159-180) with the
keystroke-file contents passed as `lines` and the persisted alert status
(`last_alert_line`) as `lastAlertLine`.  Scans the lines strictly after the
acknowledged index, strips each, skips blank ones, and counts/collects those
whose enhanced sentiment score is strictly below `THRESHOLD`; also returns the
total raw line count. -/
def countBelowThreshold (vader : String → VaderScores) (lines : List String)
    (lastAlertLine : ℕ) : ℕ × ℕ × List String :=
  let negs := ((lines.drop lastAlertLine).map pyStrip).filter
    (fun l => !(l == "") && decide (analyzeSentiment vader l < THRESHOLD))
  (negs.length, lines.length, negs)

/-- `count_below_threshold` including its missing-file guard (analyzer.py
160-161): when the keystroke file does not exist it returns `(0, 0, [])`. -/
def countBelowThresholdFile (vader : String → VaderScores)
    (file : Option (List String)) (lastAlertLine : ℕ) : ℕ × ℕ × List String :=
  match file with
  | none => (0, 0, [])
  | some lines => countBelowThreshold vader lines lastAlertLine

/-- The alert record built by `check_and_add_guardian_alert` (gui.py 90-95);
the wall-clock `date` field is outside the model. -/
structure AlertRecord where
  negative_count : ℕ
  status : String
  reason_lines : List String
deriving DecidableEq

/-- `check_and_add_guardian_alert` (gui.py 75-110).  Returns the fired record
(if any), the new persisted `last_alert_line`, and the new alerts log
(newest-first, `logs.insert(0, record)`).  When the breach count does not
exceed the limit, nothing fires and all state is unchanged. -/
def checkAndAddGuardianAlert (vader : String → VaderScores) (lines : List String)
    (lastAlertLine : ℕ) (logs : List AlertRecord) (alertLimit : ℕ) :
    Option AlertRecord × ℕ × List AlertRecord :=
  let r := countBelowThreshold vader lines lastAlertLine
  if alertLimit < r.1 then
    let record : AlertRecord := ⟨r.1, "Sent", r.2.2⟩
    (some record, r.2.1, record :: logs)
  else
    (none, lastAlertLine, logs)

/-! ### Mood history persistence (analyzer.py `save_mood_to_history`) -/

/-- A stored mood-history entry `{timestamp, score}` (analyzer.py 200-203).
Timestamps are modelled as rational day numbers (days since an epoch) rather
than ISO-8601 strings; `get_mood_statistics` parses the stored strings back to
datetimes, so the round trip through the string format is dropped. -/
def MoodEntry : Type := ℚ × ℚ

/-- One call of `save_mood_to_history` (analyzer.py 196-223): append the entry,
then keep only the last 10000 entries if the cap is exceeded. -/
def saveMoodToHistory (history : List MoodEntry) (e : MoodEntry) : List MoodEntry :=
  let h := history ++ [e]
  if 10000 < h.length then h.drop (h.length - 10000) else h

/-! ### Period aggregation (analyzer.py `get_mood_statistics`)

Calendar arithmetic mirrors Python `datetime`: a timestamp is a rational number
of days since the epoch 1970-01-01 (which was a Thursday; Python
`date.weekday()` has Monday = 0).  Dates are converted to and from civil
(year, month, day) triples with the standard civil-calendar algorithm, which
agrees with `datetime.date` over its whole range. -/

/-- Day number of a civil date (1970-01-01 ↦ 0). -/
def daysFromCivil (y m d : ℤ) : ℤ :=
  let y1 := if m ≤ 2 then y - 1 else y
  let era := (if 0 ≤ y1 then y1 else y1 - 399) / 400
  let yoe := y1 - era * 400
  let mp := (m + 9) % 12
  let doy := (153 * mp + 2) / 5 + d - 1
  let doe := yoe * 365 + yoe / 4 - yoe / 100 + doy
  era * 146097 + doe - 719468

/-- Civil date `(year, month, day)` of a day number (inverse of `daysFromCivil`). -/
def civilFromDays (z : ℤ) : ℤ × ℤ × ℤ :=
  let z1 := z + 719468
  let era := (if 0 ≤ z1 then z1 else z1 - 146096) / 146097
  let doe := z1 - era * 146097
  let yoe := (doe - doe / 1460 + doe / 36524 - doe / 146096) / 365
  let y := yoe + era * 400
  let doy := doe - (365 * yoe + yoe / 4 - yoe / 100)
  let mp := (5 * doy + 2) / 153
  let d := doy - (153 * mp + 2) / 5 + 1
  let m := mp + (if mp < 10 then 3 else -9)
  (if m ≤ 2 then y + 1 else y, m, d)

/-- The statistics period (`'daily' | 'weekly' | 'monthly'`). -/
inductive Period where
  | daily : Period
  | weekly : Period
  | monthly : Period
deriving DecidableEq

/-- The window size: `range(30)` for daily, `range(12)` for weekly and monthly
(analyzer.py 270, 294, 319). -/
def numBuckets : Period → ℕ
  | .daily => 30
  | .weekly => 12
  | .monthly => 12

/-- `datetime.replace(hour=0, minute=0, second=0, microsecond=0)` on a rational
day timestamp: its day number. -/
def dayFloor (t : ℚ) : ℤ := ⌊t⌋

/-- The inclusive start (as a day number) of bucket `i` of the given period:
  * daily (line 271): midnight of `now - i` days;
  * weekly (lines 295-296): midnight of `now - 7i` days, moved back to Monday
    (`weekday()`: day 0 = 1970-01-01 is a Thursday, weekday 3);
  * monthly (line 320): the first of the month of
    `now.replace(day=1) - timedelta(days=30*i)`. -/
def bucketStart (p : Period) (now : ℚ) (i : ℕ) : ℤ :=
  match p with
  | .daily => dayFloor now - i
  | .weekly =>
      let d := dayFloor now - 7 * i
      d - (d + 3) % 7
  | .monthly =>
      let c := civilFromDays (dayFloor now)
      let anchor := civilFromDays (daysFromCivil c.1 c.2.1 1 - 30 * i)
      daysFromCivil anchor.1 anchor.2.1 1

/-- The exclusive end of bucket `i`: one day, seven days, or the first of the
next month (analyzer.py 272, 297, 321). -/
def bucketEnd (p : Period) (now : ℚ) (i : ℕ) : ℤ :=
  match p with
  | .daily => bucketStart p now i + 1
  | .weekly => bucketStart p now i + 7
  | .monthly =>
      let c := civilFromDays (dayFloor now)
      let anchor := civilFromDays (daysFromCivil c.1 c.2.1 1 - 30 * i)
      if anchor.2.1 < 12 then daysFromCivil anchor.1 (anchor.2.1 + 1) 1
      else daysFromCivil (anchor.1 + 1) 1 1

/-- The scores of the history entries falling in `[lo, hi)` (the
`day_start <= timestamp < day_end` filters of analyzer.py 275-281 etc.). -/
def bucketScores (history : List MoodEntry) (lo hi : ℤ) : List ℚ :=
  (history.filter (fun e => decide ((lo : ℚ) ≤ e.1) && decide (e.1 < (hi : ℚ)))).map
    (fun e => e.2)

/-- One emitted statistics dict `{label, value, count}`.  `labelDay` stands in
for the `strftime` label string: it is the start day number of the bucket, from
which the label is formatted. -/
structure StatBucket where
  labelDay : ℤ
  value : ℚ
  count : ℕ
deriving DecidableEq

/-- The bucket for window index `i` (`i` periods back from now):
`statistics.mean(scores)` if the bucket is non-empty, else `0.0`, together
with the entry count (analyzer.py 283-288 etc.). -/
def mkBucket (p : Period) (now : ℚ) (history : List MoodEntry) (i : ℕ) : StatBucket :=
  let s := bucketScores history (bucketStart p now i) (bucketEnd p now i)
  ⟨bucketStart p now i, if s.length = 0 then 0 else s.sum / s.length, s.length⟩

/-- `get_mood_statistics(period)` (analyzer.py 250-341) over an explicit
history: empty history returns `[]` (line 261-262); otherwise the per-period
loop newest-first, then `list(reversed(...))` so the result is oldest-first. -/
def getMoodStatistics (p : Period) (now : ℚ) (history : List MoodEntry) :
    List StatBucket :=
  if history.isEmpty then []
  else (((List.range (numBuckets p)).map (mkBucket p now history)).reverse)

/-! ## Supporting lemmas

No pattern of the source can match inside an all-whitespace text: every pattern
contains a mandatory non-whitespace literal.  `blankMatchable` checks this
syntactically; the lemmas below connect it to the matcher. -/

theorem blankMatchable_rAlt (a b : RE) :
    (RE.rAlt a b).blankMatchable = (a.blankMatchable || b.blankMatchable) := by
  cases a <;> cases b <;> simp [RE.rAlt, RE.blankMatchable]

theorem blankMatchable_rCat (a b : RE) :
    (RE.rCat a b).blankMatchable = (a.blankMatchable && b.blankMatchable) := by
  cases a <;> cases b <;> simp [RE.rCat, RE.blankMatchable]

theorem blankMatchable_of_nullable :
    ∀ r : RE, r.nullable = true → r.blankMatchable = true := by
  intro r
  induction r with
  | emp => simp [RE.nullable]
  | eps => simp [RE.blankMatchable]
  | chr c => simp [RE.nullable]
  | cls p => simp [RE.nullable]
  | alt a b iha ihb =>
      simp only [RE.nullable, RE.blankMatchable, Bool.or_eq_true]
      rintro (h | h)
      · exact Or.inl (iha h)
      · exact Or.inr (ihb h)
  | cat a b iha ihb =>
      simp only [RE.nullable, RE.blankMatchable, Bool.and_eq_true]
      rintro ⟨h1, h2⟩
      exact ⟨iha h1, ihb h2⟩
  | star r ih => simp [RE.blankMatchable]

theorem mem_spaceList_of_pyIsSpace {c : Char} (h : pyIsSpace c = true) : c ∈ spaceList := by
  simp only [pyIsSpace, Bool.or_eq_true, beq_iff_eq] at h
  rcases h with ((((h | h) | h) | h) | h) | h <;> subst h <;> simp [spaceList]

theorem blankMatchable_of_deriv (c : Char) (hc : pyIsSpace c = true) :
    ∀ r : RE, (RE.deriv r c).blankMatchable = true → r.blankMatchable = true := by
  intro r
  induction r with
  | emp => simp [RE.deriv, RE.blankMatchable]
  | eps => simp [RE.deriv, RE.blankMatchable]
  | chr c2 =>
      simp only [RE.deriv]
      by_cases hcc : (c == c2) = true
      · intro _
        have : c = c2 := by exact beq_iff_eq.mp hcc
        subst this
        simpa [RE.blankMatchable] using hc
      · simp [hcc, RE.blankMatchable]
  | cls p =>
      simp only [RE.deriv]
      by_cases hp : p c = true
      · intro _
        simp only [RE.blankMatchable, List.any_eq_true]
        exact ⟨c, mem_spaceList_of_pyIsSpace hc, hp⟩
      · simp [hp, RE.blankMatchable]
  | alt a b iha ihb =>
      simp only [RE.deriv, blankMatchable_rAlt, Bool.or_eq_true, RE.blankMatchable]
      rintro (h | h)
      · exact Or.inl (iha h)
      · exact Or.inr (ihb h)
  | cat a b iha ihb =>
      simp only [RE.deriv]
      by_cases hn : a.nullable = true
      · rw [if_pos hn, blankMatchable_rAlt, blankMatchable_rCat]
        simp only [Bool.or_eq_true, Bool.and_eq_true, RE.blankMatchable]
        rintro (⟨h1, h2⟩ | h)
        · exact ⟨iha h1, h2⟩
        · exact ⟨blankMatchable_of_nullable a hn, ihb h⟩
      · rw [if_neg hn, blankMatchable_rCat]
        simp only [Bool.and_eq_true, RE.blankMatchable]
        rintro ⟨h1, h2⟩
        exact ⟨iha h1, h2⟩
  | star r ih =>
      simp [RE.deriv, blankMatchable_rCat, RE.blankMatchable]

theorem reMatch_blank_false :
    ∀ s : List Char, s.all pyIsSpace = true →
      ∀ r : RE, r.blankMatchable = false → RE.reMatch r s = false := by
  intro s
  induction s with
  | nil =>
      intro _ r hbm
      cases hn : r.nullable with
      | false => simp [RE.reMatch, List.foldl, hn]
      | true =>
          have := blankMatchable_of_nullable r hn
          rw [hbm] at this
          exact absurd this (by simp)
  | cons c cs ih =>
      intro hall r hbm
      have hc : pyIsSpace c = true := by
        have := List.all_eq_true.mp hall c (List.mem_cons_self c cs)
        exact this
      have hcs : cs.all pyIsSpace = true := by
        apply List.all_eq_true.mpr
        intro x hx
        exact List.all_eq_true.mp hall x (List.mem_cons_of_mem c hx)
      have hstep : RE.reMatch r (c :: cs) = RE.reMatch (RE.deriv r c) cs := rfl
      rw [hstep]
      apply ih hcs
      cases hbd : (RE.deriv r c).blankMatchable with
      | false => rfl
      | true =>
          have := blankMatchable_of_deriv c hc r hbd
          rw [hbm] at this
          exact absurd this (by simp)

theorem toLower_space {c : Char} (h : pyIsSpace c = true) : c.toLower = c := by
  simp only [pyIsSpace, Bool.or_eq_true, beq_iff_eq] at h
  rcases h with ((((h | h) | h) | h) | h) | h <;> subst h <;> decide

theorem lowerChars_all_space {t : String} (h : isBlank t = true) :
    (lowerChars t).all pyIsSpace = true := by
  simp only [isBlank] at h
  simp only [lowerChars, List.all_map]
  apply List.all_eq_true.mpr
  intro x hx
  have hs : pyIsSpace x = true := List.all_eq_true.mp h x hx
  simpa [Function.comp, toLower_space hs] using hs

theorem reSearch_blank_false {t : String} (h : isBlank t = true) (r : RE)
    (hbm : r.blankMatchable = false) : RE.reSearch r (lowerChars t) = false := by
  apply reMatch_blank_false _ (lowerChars_all_space h)
  simp [RE.reSearch, RE.blankMatchable, hbm]

theorem concerningPhraseHit_blank {t : String} (h : isBlank t = true) :
    concerningPhraseHit t = false := by
  unfold concerningPhraseHit
  apply List.any_eq_false.mpr
  intro r hr
  have hbm : r.blankMatchable = false := by
    simp only [concerningPhrases, List.mem_cons, List.not_mem_nil, or_false] at hr
    rcases hr with hr | hr | hr | hr | hr | hr <;> subst hr <;> decide
  simp [reSearch_blank_false h r hbm]

/-- The non-blank branch of `analyze_context`, with every field spelled out. -/
theorem analyzeContext_main (v : VaderScores) (t : String) (h : isBlank t = false) :
    analyzeContext v t =
      { original_vader := v
        adjusted_compound := adjustedScore v t
        is_sarcastic := (detectSarcasm t).1
        sarcasm_confidence := (detectSarcasm t).2
        mental_health_concern := (detectMentalHealth t).1
        concern_confidence := (detectMentalHealth t).2
        sentiment_category := categorizeSentiment (adjustedScore v t)
        confidence := abs (adjustedScore v t)
        needs_attention := decide (adjustedScore v t < -(2/5)) || (detectSarcasm t).1
          || (detectMentalHealth t).1 || decide ((detectMentalHealth t).2 > 3/10)
        explanation := some (generateExplanation v.compound (adjustedScore v t)
          (detectSarcasm t).1 (detectMentalHealth t).1) } := by
  simp [analyzeContext, h]

/-- With the mental-health flag set, the final score is the sarcasm-corrected
score clamped to at most `-0.7`; the later `-0.6` clamp never undoes it. -/
theorem adjustedScore_flag (v : VaderScores) (t : String)
    (hf : (detectMentalHealth t).1 = true) :
    adjustedScore v t = min (sarcasmAdjust (detectSarcasm t).1 v.compound) (-(7/10)) := by
  simp only [adjustedScore, hf, if_true]
  by_cases hc : concerningPhraseHit t = true
  · simp only [hc, if_true]
    exact min_eq_left (le_trans (min_le_right _ _) (by norm_num))
  · simp [hc]

/-- Either crisis signal clamps the final score to at most `-0.6`. -/
theorem adjustedScore_le_of_crisis (v : VaderScores) (t : String)
    (h : (detectMentalHealth t).1 = true ∨ concerningPhraseHit t = true) :
    adjustedScore v t ≤ -(3/5) := by
  rcases h with hf | hc
  · rw [adjustedScore_flag v t hf]
    exact le_trans (min_le_right _ _) (by norm_num)
  · simp only [adjustedScore, hc, if_true]
    exact min_le_right _ _

/-- The clamps only ever lower the sarcasm-corrected score. -/
theorem adjustedScore_le_sarcasmAdjust (v : VaderScores) (t : String) :
    adjustedScore v t ≤ sarcasmAdjust (detectSarcasm t).1 v.compound := by
  simp only [adjustedScore]
  by_cases hf : (detectMentalHealth t).1 = true <;>
    by_cases hc : concerningPhraseHit t = true <;>
      simp only [hf, hc, if_true, if_false]
  · exact le_trans (min_le_left _ _) (min_le_left _ _)
  · exact min_le_left _ _
  · exact min_le_left _ _
  · exact le_refl _

/-- When neither clamp fires, the final score is the sarcasm-corrected score. -/
theorem adjustedScore_no_clamp (v : VaderScores) (t : String)
    (hf : (detectMentalHealth t).1 = false) (hc : concerningPhraseHit t = false) :
    adjustedScore v t = sarcasmAdjust (detectSarcasm t).1 v.compound := by
  simp [adjustedScore, hf, hc]

/-! ## Claim theorems -/

/-- Claim C2: for every text matching a crisis pattern (the mental-health flag
or a literal concerning phrase), the adjusted score is at most -0.6 regardless
of the base compound score; when the mental-health flag is set the adjusted
score equals `min(prior adjusted, -0.7)` (the prior value being the
sarcasm-corrected compound).  In particular, for "I want to kill myself" the
flag is set, the adjusted score is at most -0.6, and needs_attention holds. -/
theorem crisis_pattern_clamp (v : VaderScores) (t : String)
    (h : (analyzeContext v t).mental_health_concern = true ∨ concerningPhraseHit t = true) :
    (analyzeContext v t).adjusted_compound ≤ -(3/5)
    ∧ ((analyzeContext v t).mental_health_concern = true →
        (analyzeContext v t).adjusted_compound
          = min (sarcasmAdjust (detectSarcasm t).1 v.compound) (-(7/10)))
    ∧ (analyzeContext v ("I want to kill myself")).mental_health_concern = true
    ∧ (analyzeContext v ("I want to kill myself")).adjusted_compound ≤ -(3/5)
    ∧ (analyzeContext v ("I want to kill myself")).needs_attention = true := by
  have hxblank : isBlank ("I want to kill myself") = false := by decide
  have hxflag : (detectMentalHealth ("I want to kill myself")).1 = true := by decide
  have hx := analyzeContext_main v ("I want to kill myself") hxblank
  refine ⟨?_, ?_, ?_, ?_, ?_⟩
  · cases hb : isBlank t with
    | true =>
        exfalso
        rcases h with hf | hc
        · simp [analyzeContext, hb] at hf
        · rw [concerningPhraseHit_blank hb] at hc
          exact absurd hc (by simp)
    | false =>
        rw [analyzeContext_main v t hb] at h ⊢
        exact adjustedScore_le_of_crisis v t h
  · intro hf
    cases hb : isBlank t with
    | true => simp [analyzeContext, hb] at hf
    | false =>
        rw [analyzeContext_main v t hb] at hf ⊢
        exact adjustedScore_flag v t hf
  · rw [hx]
    exact hxflag
  · rw [hx]
    exact adjustedScore_le_of_crisis v _ (Or.inl hxflag)
  · rw [hx]
    simp [hxflag]

/-- Witness for C2 at a concrete input. -/
theorem crisis_pattern_clamp_witness :
    (analyzeContext ⟨0, 0, 1, 0⟩ ("I want to kill myself")).mental_health_concern = true
    ∧ (analyzeContext ⟨0, 0, 1, 0⟩ ("I want to kill myself")).adjusted_compound ≤ -(3/5) :=
  have h : (analyzeContext ⟨0, 0, 1, 0⟩ ("I want to kill myself")).mental_health_concern
      = true := by decide
  ⟨h, (crisis_pattern_clamp ⟨0, 0, 1, 0⟩ ("I want to kill myself") (Or.inl h)).1⟩

/-- Claim C3 counterexample: a sarcastic text with base compound 1/2 > 0.1 whose
final adjusted score is -0.7 (lowered further by the mental-health clamp), not
`-abs(compound)*0.7 = -0.35`. -/
theorem sarcasm_sign_rule_cex :
    (analyzeContext ⟨1/2, 0, 0, 0⟩ ("so happy i want to kill myself")).is_sarcastic = true
    ∧ ((1:ℚ)/2 > 1/10)
    ∧ (analyzeContext ⟨1/2, 0, 0, 0⟩ ("so happy i want to kill myself")).adjusted_compound
        = -(7/10)
    ∧ (analyzeContext ⟨1/2, 0, 0, 0⟩ ("so happy i want to kill myself")).adjusted_compound
        ≠ -(abs ((1:ℚ)/2)) * (7/10) := by
  decide

/-- Claim C3 (amended): if `is_sarcastic` and the base compound exceeds 0.1,
the final adjusted score is at most 0, and it equals `-abs(compound) * 0.7`
provided neither the mental-health clamp nor the concerning-phrase clamp
(both applied after the sarcasm correction) also fires. -/
theorem sarcasm_sign_rule_amended (v : VaderScores) (t : String)
    (hs : (analyzeContext v t).is_sarcastic = true)
    (hc : v.compound > 1/10) :
    (analyzeContext v t).adjusted_compound ≤ 0
    ∧ ((analyzeContext v t).mental_health_concern = false → concerningPhraseHit t = false →
        (analyzeContext v t).adjusted_compound = -(abs v.compound) * (7/10)) := by
  cases hb : isBlank t with
  | true => simp [analyzeContext, hb] at hs
  | false =>
      rw [analyzeContext_main v t hb] at hs ⊢
      simp only at hs ⊢
      have hadj : sarcasmAdjust (detectSarcasm t).1 v.compound
          = -(abs v.compound) * (7/10) := by
        unfold sarcasmAdjust
        rw [hs, if_pos rfl, if_pos hc]
      constructor
      · refine le_trans (adjustedScore_le_sarcasmAdjust v t) ?_
        rw [hadj]
        nlinarith [abs_nonneg v.compound]
      · intro hf hcp
        rw [adjustedScore_no_clamp v t hf hcp, hadj]

/-- Witness for the amended C3 at a concrete input: a sarcastic text tripping
neither clamp. -/
theorem sarcasm_sign_rule_amended_witness :
    (analyzeContext ⟨1/2, 0, 0, 0⟩ ("i am so happy i could die")).adjusted_compound
      = -(abs ((1:ℚ)/2)) * (7/10) :=
  (sarcasm_sign_rule_amended ⟨1/2, 0, 0, 0⟩ ("i am so happy i could die")
      (by decide) (by norm_num)).2 (by decide) (by decide)

/-- Claim C7: empty or whitespace-only input short-circuits to the fixed
neutral result (zero scores, neu = 1, category "neutral", every flag false),
and the scalar wrapper `analyze_sentiment` returns 0. -/
theorem blank_input_neutral (v : VaderScores) (t : String) (h : isBlank t = true) :
    analyzeContext v t =
      { original_vader := ⟨0, 0, 1, 0⟩
        adjusted_compound := 0
        is_sarcastic := false
        sarcasm_confidence := 0
        mental_health_concern := false
        concern_confidence := 0
        sentiment_category := "neutral"
        confidence := 0
        needs_attention := false
        explanation := none }
    ∧ (∀ vf : String → VaderScores, analyzeSentiment vf t = 0) := by
  constructor
  · simp [analyzeContext, h]
  · intro vf
    simp [analyzeSentiment, h]

/-- Witness for C7 at the whitespace-only input. -/
theorem blank_input_neutral_witness :
    analyzeContext ⟨0, 0, 1, 0⟩ ("   ") =
      { original_vader := ⟨0, 0, 1, 0⟩
        adjusted_compound := 0
        is_sarcastic := false
        sarcasm_confidence := 0
        mental_health_concern := false
        concern_confidence := 0
        sentiment_category := "neutral"
        confidence := 0
        needs_attention := false
        explanation := none }
    ∧ analyzeSentiment (fun _ => ⟨0, 0, 1, 0⟩) ("   ") = 0 :=
  have h := blank_input_neutral ⟨0, 0, 1, 0⟩ ("   ") (by decide)
  ⟨h.1, h.2 (fun _ => ⟨0, 0, 1, 0⟩)⟩

/-- Claim C9: the positive/negative vocabulary scan of `detect_sarcasm` uses
substring containment, so "so happy with my diet" — which contains no negative
word as a whole word, but contains "die" inside "diet" — is reported sarcastic
with confidence above 0.5. -/
theorem sarcasm_substring_containment :
    negativeWords.all (fun w => !(hasWholeWord w ("so happy with my diet"))) = true
    ∧ (detectSarcasm ("so happy with my diet")).1 = true
    ∧ (detectSarcasm ("so happy with my diet")).2 > 1/2 := by
  decide

/-- Claim C10: the blank-input short-circuit result omits the explanation field
(it is `none`), while every non-blank input's result carries one. -/
theorem explanation_field_presence (v : VaderScores) (t : String) :
    (isBlank t = true → (analyzeContext v t).explanation = none)
    ∧ (isBlank t = false → ((analyzeContext v t).explanation).isSome = true) := by
  constructor
  · intro h
    simp [analyzeContext, h]
  · intro h
    simp [analyzeContext, h]

/-- Witness for C10 at concrete blank and non-blank inputs. -/
theorem explanation_field_presence_witness :
    (analyzeContext ⟨0, 0, 1, 0⟩ ("")).explanation = none
    ∧ ((analyzeContext ⟨0, 0, 1, 0⟩ ("hello")).explanation).isSome = true :=
  ⟨(explanation_field_presence ⟨0, 0, 1, 0⟩ ("")).1 (by decide),
   (explanation_field_presence ⟨0, 0, 1, 0⟩ ("hello")).2 (by decide)⟩

/-- Scanning from an acknowledgment pointer at the end of the line list finds
nothing: zero breaches, the unchanged total, no breach lines. -/
theorem countBelowThreshold_at_length (vader : String → VaderScores)
    (lines : List String) :
    countBelowThreshold vader lines lines.length = (0, lines.length, []) := by
  unfold countBelowThreshold
  simp [List.drop_length]

/-- Claim C1: when an alert fires, the acknowledgment pointer advances to the
total line count, so a subsequent breach scan over the same unchanged line
sequence returns zero breaches — lines that contributed to a fired alert never
contribute to a later one. -/
theorem alert_fire_prevents_double_counting (vader : String → VaderScores)
    (lines : List String) (st : ℕ) (logs : List AlertRecord) (limit : ℕ)
    (record : AlertRecord) (st2 : ℕ) (logs2 : List AlertRecord)
    (h : checkAndAddGuardianAlert vader lines st logs limit = (some record, st2, logs2)) :
    st2 = lines.length ∧ countBelowThreshold vader lines st2 = (0, lines.length, []) := by
  simp only [checkAndAddGuardianAlert] at h
  by_cases hfire : limit < (countBelowThreshold vader lines st).1
  · rw [if_pos hfire, Prod.mk.injEq, Prod.mk.injEq] at h
    obtain ⟨-, hst, -⟩ := h
    have hst2 : st2 = lines.length := hst.symm
    subst hst2
    exact ⟨rfl, countBelowThreshold_at_length vader lines⟩
  · rw [if_neg hfire, Prod.mk.injEq] at h
    exact absurd h.1 (by simp)

/-- Witness for C1: a fired six-line alert, after which the re-scan is empty. -/
theorem alert_fire_prevents_double_counting_witness :
    countBelowThreshold (fun _ => ⟨-1, 0, 0, 0⟩) ["u1", "u2", "u3", "u4", "u5", "u6"] 6
      = (0, 6, []) :=
  (alert_fire_prevents_double_counting (fun _ => ⟨-1, 0, 0, 0⟩)
      ["u1", "u2", "u3", "u4", "u5", "u6"] 0 [] 5
      ⟨6, "Sent", ["u1", "u2", "u3", "u4", "u5", "u6"]⟩ 6
      [⟨6, "Sent", ["u1", "u2", "u3", "u4", "u5", "u6"]⟩] (by decide)).2

/-- Claim C4: `maybe_fire` fires iff the breach count strictly exceeds the
limit.  On firing, the record carries the breach count (and the stripped breach
lines), the pointer advances to the total line count, and the record is
prepended to the log; otherwise nothing is returned and the state is unchanged.
With six lines scoring -0.6 each under the defaults (limit 5, threshold -0.5),
it fires with breach_count = 6. -/
theorem maybe_fire_iff_over_limit (vader : String → VaderScores) (lines : List String)
    (st : ℕ) (logs : List AlertRecord) (limit : ℕ) :
    ((checkAndAddGuardianAlert vader lines st logs limit).1.isSome = true
      ↔ limit < (countBelowThreshold vader lines st).1)
    ∧ (limit < (countBelowThreshold vader lines st).1 →
        checkAndAddGuardianAlert vader lines st logs limit =
          (some ⟨(countBelowThreshold vader lines st).1, "Sent",
                 (countBelowThreshold vader lines st).2.2⟩,
           lines.length,
           ⟨(countBelowThreshold vader lines st).1, "Sent",
            (countBelowThreshold vader lines st).2.2⟩ :: logs))
    ∧ (¬ limit < (countBelowThreshold vader lines st).1 →
        checkAndAddGuardianAlert vader lines st logs limit = (none, st, logs))
    ∧ (checkAndAddGuardianAlert (fun _ => ⟨-(3/5), 0, 0, 0⟩)
          ["s1", "s2", "s3", "s4", "s5", "s6"] 0 [] ALERT_LIMIT).1
        = some ⟨6, "Sent", ["s1", "s2", "s3", "s4", "s5", "s6"]⟩ := by
  refine ⟨?_, ?_, ?_, by decide⟩
  · simp only [checkAndAddGuardianAlert]
    by_cases hfire : limit < (countBelowThreshold vader lines st).1
    · simp [hfire]
    · simp [hfire]
  · intro hfire
    simp only [checkAndAddGuardianAlert]
    rw [if_pos hfire]
    rfl
  · intro hfire
    simp only [checkAndAddGuardianAlert]
    rw [if_neg hfire]

/-- Witness for C4: the fire branch at a concrete seven-line input. -/
theorem maybe_fire_iff_over_limit_witness :
    checkAndAddGuardianAlert (fun _ => ⟨-1, 0, 0, 0⟩)
        ["w1", "w2", "w3", "w4", "w5", "w6", "w7"] 0 [] 5
      = (some ⟨7, "Sent", ["w1", "w2", "w3", "w4", "w5", "w6", "w7"]⟩, 7,
         [⟨7, "Sent", ["w1", "w2", "w3", "w4", "w5", "w6", "w7"]⟩]) :=
  ((maybe_fire_iff_over_limit (fun _ => ⟨-1, 0, 0, 0⟩)
      ["w1", "w2", "w3", "w4", "w5", "w6", "w7"] 0 [] 5).2.1 (by decide)).trans
    (by decide)

/-- Claim C5 (amended): when the keystroke file is missing, the breach-count
observation returns zero counts — `(0, 0, [])` — without crashing; it zeroes
the reading rather than repeating last-known counts. -/
theorem observe_missing_file_zeroes (vader : String → VaderScores) (st : ℕ) :
    countBelowThresholdFile vader none st = (0, 0, []) := rfl

/-- Claim C5 counterexample: with the file present the observation reads
`(1, 1, ["sad"])`; with the file missing the very same observation reads
`(0, 0, [])` — a silent zeroing, not the last-known counts. -/
theorem observe_missing_file_cex :
    countBelowThresholdFile (fun _ => ⟨-1, 0, 0, 0⟩) (some ["sad"]) 0 = (1, 1, ["sad"])
    ∧ countBelowThresholdFile (fun _ => ⟨-1, 0, 0, 0⟩) none 0 = (0, 0, [])
    ∧ ((0, 0, ([] : List String)) : ℕ × ℕ × List String) ≠ (1, 1, ["sad"]) := by
  decide

/-- One capped append, written drop-first: keep the last 10000 of the extended
list (dropping nothing while under the cap). -/
theorem saveMoodToHistory_eq (history : List MoodEntry) (e : MoodEntry) :
    saveMoodToHistory history e
      = (history ++ [e]).drop ((history.length + 1) - 10000) := by
  show (if 10000 < (history ++ [e]).length then
          (history ++ [e]).drop ((history ++ [e]).length - 10000) else history ++ [e])
      = (history ++ [e]).drop ((history.length + 1) - 10000)
  have hlen : (history ++ [e]).length = history.length + 1 := by
    rw [List.length_append, List.length_cons, List.length_nil]
  split
  · rw [hlen]
  · next hge =>
      rw [hlen] at hge
      have h0 : history.length + 1 - 10000 = 0 := by omega
      rw [h0, List.drop_zero]

/-- Folding appends over the capped store keeps exactly the last 10000 of the
concatenated stream. -/
theorem saveMood_foldl (es : List MoodEntry) :
    ∀ h0 : List MoodEntry, h0.length ≤ 10000 →
      es.foldl saveMoodToHistory h0
        = (h0 ++ es).drop ((h0.length + es.length) - 10000) := by
  induction es with
  | nil =>
      intro h0 hle
      have h0eq : (h0.length + List.length ([] : List MoodEntry)) - 10000 = 0 := by
        rw [List.length_nil]
        omega
      rw [List.foldl_nil, List.append_nil, h0eq, List.drop_zero]
  | cons e es ih =>
      intro h0 hle
      rw [List.foldl_cons, saveMoodToHistory_eq]
      have hlen2 : ((h0 ++ [e]).drop ((h0.length + 1) - 10000)).length ≤ 10000 := by
        rw [List.length_drop, List.length_append, List.length_cons, List.length_nil]
        omega
      rw [ih _ hlen2]
      rw [List.length_drop, List.length_append, List.length_cons, List.length_nil]
      rw [← List.drop_append_of_le_length
        (show (h0.length + 1) - 10000 ≤ (h0 ++ [e]).length by
          rw [List.length_append, List.length_cons, List.length_nil]
          omega)]
      rw [List.drop_drop]
      rw [show h0 ++ e :: es = (h0 ++ [e]) ++ es from by
        rw [List.append_assoc, List.singleton_append]]
      rw [List.length_cons]
      exact congrArg (fun n => List.drop n ((h0 ++ [e]) ++ es)) (by omega)

/-- Claim C6: the stored mood history never exceeds 10000 entries, and
appending 10050 entries into an empty store leaves exactly the most recent
10000 in insertion order (the oldest 50 evicted, FIFO). -/
theorem mood_history_cap :
    (∀ (es h0 : List MoodEntry), h0.length ≤ 10000 →
      (es.foldl saveMoodToHistory h0).length ≤ 10000)
    ∧ (∀ es : List MoodEntry, es.length = 10050 →
        es.foldl saveMoodToHistory [] = es.drop 50) := by
  constructor
  · intro es h0 hle
    rw [saveMood_foldl es h0 hle]
    rw [List.length_drop, List.length_append]
    omega
  · intro es hlen
    rw [saveMood_foldl es []
      (by rw [List.length_nil]; exact Nat.zero_le 10000)]
    rw [List.nil_append]
    exact congrArg (fun n => List.drop n es) (by rw [List.length_nil]; omega)

/-- Witness for C6: the 10050-entry append leaves the last 10000 entries. -/
theorem mood_history_cap_witness :
    (List.replicate 10050 (((0 : ℚ), (0 : ℚ)) : MoodEntry)).foldl saveMoodToHistory []
      = (List.replicate 10050 (((0 : ℚ), (0 : ℚ)) : MoodEntry)).drop 50 :=
  mood_history_cap.2 (List.replicate 10050 (((0 : ℚ), (0 : ℚ)) : MoodEntry))
    (by rw [List.length_replicate])

/-- Claim C8: for a non-empty history, period aggregation returns exactly 30
daily / 12 weekly / 12 monthly buckets, oldest-first (position `i` holds the
bucket `numBuckets - 1 - i` periods back from now); each bucket reports the
count of entries whose timestamp falls in its calendar range and their
arithmetic mean as value, with an empty bucket reporting value 0 and count 0
(so one zero-scoring sample, count 1, is distinguishable from no data). -/
theorem mood_statistics_spec (p : Period) (now : ℚ) (history : List MoodEntry)
    (hne : history ≠ []) :
    (getMoodStatistics p now history).length = numBuckets p
    ∧ ∀ i : ℕ, i < numBuckets p →
        (getMoodStatistics p now history)[i]?
          = some
            { labelDay := bucketStart p now (numBuckets p - 1 - i)
              value :=
                if (bucketScores history (bucketStart p now (numBuckets p - 1 - i))
                      (bucketEnd p now (numBuckets p - 1 - i))).length = 0 then 0
                else (bucketScores history (bucketStart p now (numBuckets p - 1 - i))
                        (bucketEnd p now (numBuckets p - 1 - i))).sum
                  / ((bucketScores history (bucketStart p now (numBuckets p - 1 - i))
                        (bucketEnd p now (numBuckets p - 1 - i))).length : ℚ)
              count := (bucketScores history (bucketStart p now (numBuckets p - 1 - i))
                        (bucketEnd p now (numBuckets p - 1 - i))).length } := by
  have hni : ¬ (history.isEmpty = true) := by
    cases history with
    | nil => exact absurd rfl hne
    | cons a l => exact Bool.false_ne_true
  have hunfold : getMoodStatistics p now history
      = ((List.range (numBuckets p)).map (mkBucket p now history)).reverse := by
    unfold getMoodStatistics
    rw [if_neg hni]
  constructor
  · rw [hunfold, List.length_reverse, List.length_map, List.length_range]
  · intro i hi
    rw [hunfold,
      List.getElem?_reverse (by rw [List.length_map, List.length_range]; exact hi),
      List.length_map, List.length_range, List.getElem?_map,
      List.getElem?_range (by omega)]
    rfl

/-- Witness for C8: the daily aggregation of a one-entry history has 30
buckets. -/
theorem mood_statistics_spec_witness :
    (getMoodStatistics Period.daily 0 [(((0 : ℚ), (0 : ℚ)) : MoodEntry)]).length
      = numBuckets Period.daily :=
  (mood_statistics_spec Period.daily 0 [(((0 : ℚ), (0 : ℚ)) : MoodEntry)]
    (by exact List.cons_ne_nil _ _)).1

end StrawHats

